import Mathlib

/-!
Verification development for the speech-recognition session manager of the
qt-capture-speech repository.  The repository has two variants of the
session manager:

* the "app" variant: `app/speech_recognition.py` (`SpeechRecognition` plus
  `MicrophoneStream`), and
* the "service" variant: `src/speech/speech_service.py` (`SpeechService`).

The definitions below are shallow embeddings of those two Python classes:
pure functions embed the pure fragments and explicit state passing embeds
the stateful fragments.  Each definition's doc comment names the source
lines it embeds.
-/

/-! ## Word matching: the exit-phrase scan

`app/speech_recognition.py` line 165 runs
`re.search(r"\b(exit|quit)\b", transcript, re.I)`.
We embed the whole-word search over lists of characters. -/

/-- A regex word character (`\w` over ASCII): letter, digit or underscore. -/
def isWordChar (c : Char) : Bool :=
  c.isAlphanum || c = '_'

/-- If `t` is a prefix of `s`, return the remaining suffix of `s`. -/
def dropTarget : List Char → List Char → Option (List Char)
  | [], s => some s
  | _ :: _, [] => none
  | t :: ts, c :: cs => if c = t then dropTarget ts cs else none

/-- Whole-word occurrence of `w` at the head of `s`, where `prev` is the
character just before `s` (`none` at the start of the string): `w` must be a
prefix of `s` and must be delimited by non-word characters (`\b`). -/
def wordAt (w : List Char) (prev : Option Char) (s : List Char) : Bool :=
  match dropTarget w s with
  | none => false
  | some rest =>
    (match prev with
     | none => true
     | some p => !(isWordChar p)) &&
    (match rest with
     | [] => true
     | r :: _ => !(isWordChar r))

/-- Scan `s` for a whole-word occurrence of `w`; `prev` is the character
before the current position. -/
def scanWord (w : List Char) : Option Char → List Char → Bool
  | prev, [] => wordAt w prev []
  | prev, c :: rest => wordAt w prev (c :: rest) || scanWord w (some c) rest

/-- Embedding of `re.search(r"\b(exit|quit)\b", transcript, re.I)` from
`app/speech_recognition.py` line 165: case-insensitive whole-word search for
"exit" or "quit". -/
def exitPhrase (s : String) : Bool :=
  let l := s.data.map Char.toLower
  scanWord (("exit").data) none l || scanWord (("quit").data) none l

/-! ## Python `str.strip` -/

/-- Embedding of Python `str.strip()` (used at
`src/speech/speech_service.py` line 232): drop whitespace from both ends. -/
def pyStrip (s : String) : String :=
  String.mk
    (((s.data.dropWhile Char.isWhitespace).reverse.dropWhile
        Char.isWhitespace).reverse)

/-! ## Shared transcription-provider data model

`response.results` is a list of results; each result carries
confidence-ordered `alternatives` (we keep only the transcript text of each
alternative) and an `is_final` flag.  Both variants read
`response.results[0].alternatives[0].transcript` and
`response.results[0].is_final`. -/

/-- One recognition result of a streaming response. -/
structure RecResult where
  alternatives : List String
  is_final : Bool
deriving DecidableEq, Repr

/-! ## The app variant: `SpeechRecognition` (`app/speech_recognition.py`)

Events observable on the Qt signal boundary, plus ghost device events that
record when the worker's `MicrophoneStream` context is entered and exited. -/

/-- Events of the app variant.  `started` = `recording_started`,
`stopped` = `recording_stopped`, `transcript` = `transcript_updated`,
`errorEv` = `error_occurred`; `devOpen`/`devClose` are ghost markers for the
`with MicrophoneStream(...)` enter/exit (lines 130 and implicit exit). -/
inductive Ev
  | started
  | stopped
  | transcript (t : String) (fin : Bool)
  | errorEv
  | devOpen
  | devClose
deriving DecidableEq, Repr

/-- One input item consumed by the worker's response loop: a streaming
response, an exception raised by the call or the response iterator, or an
external `stop_recording()` call interleaved between response arrivals. -/
inductive InItem
  | resp (results : List RecResult)
  | raiseItem
  | userStop
deriving DecidableEq, Repr

/-- Embedding of `SpeechRecognition._process_responses`
(`app/speech_recognition.py` lines 147-167) together with the effect of
`stop_recording` (lines 109-114) interleaved at `userStop` items.  The first
component is the list of events emitted by the loop; the second records
whether an exception escaped toward `_recognition_loop`'s `except` clause.
The boolean state is `self.is_recording`:

* a pulled response is dropped and the loop breaks when `is_recording` is
  false (line 150);
* empty `results` or empty `alternatives` are skipped (lines 153, 157);
* otherwise `transcript_updated` is emitted (line 163), and a final
  transcript matching the exit phrase triggers `stop_recording()` — which
  emits `recording_stopped` (line 114) — followed by `break` (lines 165-167);
* `userStop` runs `stop_recording()`: sets `is_recording := false` and emits
  `recording_stopped` (lines 111-114). -/
def appLoop : Bool → List InItem → List Ev × Bool
  | _, [] => ([], false)
  | _, InItem.raiseItem :: _ => ([], true)
  | _, InItem.userStop :: rest =>
    let p := appLoop false rest
    (Ev.stopped :: p.1, p.2)
  | isRec, InItem.resp results :: rest =>
    if isRec then
      match results with
      | [] => appLoop isRec rest
      | r :: _ =>
        match r.alternatives with
        | [] => appLoop isRec rest
        | t :: _ =>
          if r.is_final && exitPhrase t then
            ([Ev.transcript t r.is_final, Ev.stopped], false)
          else
            let p := appLoop isRec rest
            (Ev.transcript t r.is_final :: p.1, p.2)
    else ([], false)

/-- Embedding of one full session generation of the app variant that
successfully opens the device: `start_recording` (lines 98-107, emitting
`recording_started`), the worker `_recognition_loop` (lines 116-145): the
`with MicrophoneStream` block opens the device, the response loop runs, the
`with` exit closes the device on every path, the `except` clause emits
`error_occurred` when an exception escaped, and the `finally` clause emits
`recording_stopped` unconditionally (lines 143-145). -/
def runSession (script : List InItem) : List Ev :=
  let p := appLoop true script
  Ev.started :: Ev.devOpen :: (p.1 ++ [Ev.devClose] ++
    (if p.2 then [Ev.errorEv] else []) ++ [Ev.stopped])

/-- Number of `stop_recording()` invocations performed while the worker's
response loop of the app variant is running: one per `userStop` item
consumed, plus one if a final exit-phrase transcript is reached
(`app/speech_recognition.py` lines 109-114, 165-167). -/
def stopCalls : Bool → List InItem → Nat
  | _, [] => 0
  | _, InItem.raiseItem :: _ => 0
  | _, InItem.userStop :: rest => 1 + stopCalls false rest
  | isRec, InItem.resp results :: rest =>
    if isRec then
      match results with
      | [] => stopCalls isRec rest
      | r :: _ =>
        match r.alternatives with
        | [] => stopCalls isRec rest
        | t :: _ =>
          if r.is_final && exitPhrase t then 1
          else stopCalls isRec rest
    else 0

/-! ## The app variant control surface: `start_recording` / `stop_recording`

The control-thread state of a `SpeechRecognition` object, with ghost
counters for spawned workers. -/

/-- Control-thread state of `SpeechRecognition`: `is_recording` (line 78),
whether `self.client` is set (lines 80, 94), and a ghost count of worker
threads spawned so far. -/
structure AppCtl where
  isRecording : Bool
  hasClient : Bool
  workersSpawned : Nat
deriving DecidableEq, Repr

/-- Embedding of `SpeechRecognition.start_recording`
(`app/speech_recognition.py` lines 98-107): returns without effect when
already recording or when the client is missing; otherwise sets
`is_recording`, spawns one worker thread and emits `recording_started`. -/
def appStartRecording (s : AppCtl) : AppCtl × List Ev :=
  if s.isRecording || !s.hasClient then (s, [])
  else
    ({ s with isRecording := true, workersSpawned := s.workersSpawned + 1 },
     [Ev.started])

/-- Embedding of `SpeechRecognition.stop_recording`
(`app/speech_recognition.py` lines 109-114): unconditionally clears
`is_recording`, marks the stream closed (a flag write, not a device
operation), and unconditionally emits `recording_stopped`. -/
def appStopRecording (s : AppCtl) : AppCtl × List Ev :=
  ({ s with isRecording := false }, [Ev.stopped])

/-! ## The service variant: `SpeechService` (`src/speech/speech_service.py`) -/

/-- Events of the service variant, per the `SpeechServiceInterface` signals
(`src/core/interfaces.py` lines 50-52): `transcription` =
`transcription_received(str)`, `svcError` = `error_occurred`,
`statusChanged` = `recording_status_changed(bool)`. -/
inductive SvcEv
  | transcription (t : String)
  | svcError
  | statusChanged (b : Bool)
deriving DecidableEq, Repr

/-- One input item consumed by `SpeechService._process_responses`: a
streaming response, or an exception raised by the response iterator. -/
inductive SvcItem
  | resp (results : List RecResult)
  | raiseItem
deriving DecidableEq, Repr

/-- State of a `SpeechService` object: client present (line 26),
`is_recording` (line 42), `should_stop` (line 43), whether `self.stream` is
an open stream (line 37), the configured `interim_results` flag (line 33),
and ghost counts of device opens and worker spawns. -/
structure SvcState where
  hasClient : Bool
  isRecording : Bool
  shouldStop : Bool
  streamOpen : Bool
  interim : Bool
  devicesOpened : Nat
  workersSpawned : Nat
deriving DecidableEq, Repr

/-- Embedding of `SpeechService._process_responses`
(`src/speech/speech_service.py` lines 215-241).  `interim` is
`self.interim_results`; the boolean argument is the sampled value of
`self.should_stop` during this run.  Per response: break if `should_stop` is
set (line 219); skip empty `results`/`alternatives` (lines 222, 226); on a
final result emit the stripped transcript (line 232); on an interim result
emit it prefixed with "[INTERIM] " only when `interim_results` is set
(lines 233-235).  An exception from the iterator is caught by the method's
own handler, which emits `error_occurred` unless `should_stop` is set
(lines 237-241).  No state field is written anywhere in the method. -/
def svcProcessResponses (interim : Bool) : Bool → List SvcItem → List SvcEv
  | _, [] => []
  | stopFlag, SvcItem.raiseItem :: _ =>
    if stopFlag then [] else [SvcEv.svcError]
  | stopFlag, SvcItem.resp results :: rest =>
    if stopFlag then []
    else
      match results with
      | [] => svcProcessResponses interim stopFlag rest
      | r :: _ =>
        match r.alternatives with
        | [] => svcProcessResponses interim stopFlag rest
        | t :: _ =>
          if r.is_final then
            SvcEv.transcription (pyStrip t) ::
              svcProcessResponses interim stopFlag rest
          else if interim then
            SvcEv.transcription (("[INTERIM] ") ++ t) ::
              svcProcessResponses interim stopFlag rest
          else svcProcessResponses interim stopFlag rest

/-- Script for one run of `SpeechService._recognition_worker`: either the
`streaming_recognize` call itself raises, or it returns a response stream
(a list of items for `_process_responses`). -/
inductive SvcScript
  | callRaise
  | stream (items : List SvcItem)
deriving DecidableEq, Repr

/-- Embedding of `SpeechService._recognition_worker`
(`src/speech/speech_service.py` lines 180-213): builds the configuration,
issues the streaming call and processes responses; its `except` clause
(lines 210-213) emits `error_occurred` when the call raises.  The worker
writes no state field: `is_recording`, `should_stop` and `self.stream` are
all left untouched on every path, including both failure paths. -/
def svcWorkerRun (s : SvcState) (sc : SvcScript) : SvcState × List SvcEv :=
  match sc with
  | SvcScript.callRaise => (s, [SvcEv.svcError])
  | SvcScript.stream items =>
    (s, svcProcessResponses s.interim s.shouldStop items)

/-- Embedding of `SpeechService.stop_recognition`
(`src/speech/speech_service.py` lines 132-155): sets `should_stop`, clears
`is_recording`, stops and closes the stream when present (clearing
`self.stream`), and unconditionally emits `recording_status_changed(False)`
(line 149). -/
def svcStopRecognition (s : SvcState) : SvcState × List SvcEv :=
  ({ s with shouldStop := true, isRecording := false, streamOpen := false },
   [SvcEv.statusChanged false])

/-- Embedding of `SpeechService.cleanup`
(`src/speech/speech_service.py` lines 243-257): calls `stop_recognition`,
terminates the audio interface and drops the client. -/
def svcCleanup (s : SvcState) : SvcState × List SvcEv :=
  let p := svcStopRecognition s
  ({ p.1 with hasClient := false }, p.2)

/-- Embedding of `SpeechService.initialize`
(`src/speech/speech_service.py` lines 45-69), with the environment outcome
(client creation and audio-device test succeed) supplied as `envOk`: a
no-op returning success when the client already exists (lines 48-50); on
success acquires the client (lines 52-62); on failure emits `error_occurred`
and runs `cleanup` (lines 64-69). -/
def svcInitialize (envOk : Bool) (s : SvcState) :
    SvcState × Bool × List SvcEv :=
  if s.hasClient then (s, true, [])
  else if envOk then ({ s with hasClient := true }, true, [])
  else
    let c := svcCleanup s
    (c.1, false, SvcEv.svcError :: c.2)

/-- Body of `SpeechService.start_recognition` after the client check
(`src/speech/speech_service.py` lines 94-130), with the environment outcome
of the `audio.open` call supplied as `openOk`: returns success without any
effect when already recording (lines 94-96); otherwise clears
`should_stop`, opens the stream, spawns the worker, sets `is_recording` and
emits `recording_status_changed(True)` (lines 98-124); the `except` clause
emits `error_occurred` and returns failure (lines 126-130). -/
def svcStartBody (openOk : Bool) (s : SvcState) :
    SvcState × Bool × List SvcEv :=
  if s.isRecording then (s, true, [])
  else if openOk then
    ({ s with
        shouldStop := false
        streamOpen := true
        devicesOpened := s.devicesOpened + 1
        workersSpawned := s.workersSpawned + 1
        isRecording := true },
     true, [SvcEv.statusChanged true])
  else (s, false, [SvcEv.svcError])

/-- Embedding of `SpeechService.start_recognition`
(`src/speech/speech_service.py` lines 87-130): initializes first when the
client is missing (lines 90-92), then runs the start body. -/
def svcStartRecognition (initOk openOk : Bool) (s : SvcState) :
    SvcState × Bool × List SvcEv :=
  if s.hasClient then svcStartBody openOk s
  else
    match svcInitialize initOk s with
    | (s1, true, _) => svcStartBody openOk s1
    | (s1, false, evs) => (s1, false, evs)

/-! ## Interleaved multi-generation model of the app variant

The control thread (`start_recording`/`stop_recording`) and one worker
thread per `start_recording` call run concurrently; the shared state is the
`SpeechRecognition` object.  We model the system as a labelled transition
system whose steps are the atomic actions of either thread, and tag each
event with the (ghost) generation number of the emitting worker so that
staleness is expressible.  The code itself carries no generation counter:
the tag is purely a ghost annotation of which `start_recording` call
spawned the emitting worker. -/

/-- Ghost-tagged events of the interleaved model; the `Nat` is the session
generation (the ordinal of the `start_recording` call) responsible for the
event. -/
inductive TEv
  | started (g : Nat)
  | stopped (g : Nat)
  | transcript (g : Nat) (t : String) (fin : Bool)
  | errorT (g : Nat)
deriving DecidableEq, Repr

/-- One response item pulled by a worker in the interleaved model. -/
inductive RespItem
  | resp (results : List RecResult)
  | raiseItem
deriving DecidableEq, Repr

/-- Control position of a worker thread inside `_recognition_loop`
(`app/speech_recognition.py` lines 116-145): about to enter the
`with MicrophoneStream` block; inside it (device open), looping over
responses; past the `with` exit (device closed) with a pending `except`
emission; about to run the `finally` block; finished. -/
inductive WPhase
  | toOpen
  | looping
  | excPh
  | finPh
  | doneW
deriving DecidableEq, Repr

/-- A worker thread: its ghost generation, its control position, and the
responses it has yet to pull. -/
structure Worker where
  wgen : Nat
  phase : WPhase
  script : List RespItem
deriving DecidableEq, Repr

/-- One atomic step of a worker thread, given the current shared
`is_recording` flag.  Returns the updated worker, the events it emits, and
whether it wrote `is_recording := false` (done by `stop_recording` on the
exit-phrase path, line 111, and by the `finally` block, line 144). -/
def wstep1 (isRec : Bool) (w : Worker) : Worker × List TEv × Bool :=
  match w.phase, w.script with
  | WPhase.toOpen, _ =>
    ({ w with phase := WPhase.looping }, [], false)
  | WPhase.looping, [] =>
    ({ w with phase := WPhase.finPh }, [], false)
  | WPhase.looping, RespItem.raiseItem :: rest =>
    ({ w with phase := WPhase.excPh, script := rest }, [], false)
  | WPhase.looping, RespItem.resp results :: rest =>
    if isRec then
      match results with
      | [] => ({ w with script := rest }, [], false)
      | r :: _ =>
        match r.alternatives with
        | [] => ({ w with script := rest }, [], false)
        | t :: _ =>
          if r.is_final && exitPhrase t then
            ({ w with phase := WPhase.finPh, script := rest },
             [TEv.transcript w.wgen t r.is_final, TEv.stopped w.wgen], true)
          else
            ({ w with script := rest },
             [TEv.transcript w.wgen t r.is_final], false)
    else ({ w with phase := WPhase.finPh }, [], false)
  | WPhase.excPh, _ =>
    ({ w with phase := WPhase.finPh }, [TEv.errorT w.wgen], false)
  | WPhase.finPh, _ =>
    ({ w with phase := WPhase.doneW }, [TEv.stopped w.wgen], true)
  | WPhase.doneW, _ => (w, [], false)

/-- Shared state of the interleaved model: the `is_recording` flag, the
ghost generation counter (number of successful `start_recording` calls so
far), the worker threads spawned so far, and the event log. -/
structure Sys where
  isRecording : Bool
  gen : Nat
  workers : List Worker
  events : List TEv
deriving DecidableEq, Repr

/-- The scheduler's alphabet: a control-thread `start_recording` call
(carrying the responses its worker will receive), a control-thread
`stop_recording` call, or one atomic step of worker `i`. -/
inductive Act
  | start (script : List RespItem)
  | stop
  | wstep (i : Nat)
deriving DecidableEq, Repr

/-- Embedding of `start_recording` in the interleaved model
(`app/speech_recognition.py` lines 98-107): no effect when already
recording; otherwise sets the flag, spawns a fresh worker of the next
generation and emits `recording_started`. -/
def doStart (s : Sys) (script : List RespItem) : Sys :=
  if s.isRecording then s
  else
    { s with
        isRecording := true
        gen := s.gen + 1
        workers := s.workers ++ [⟨s.gen + 1, WPhase.toOpen, script⟩]
        events := s.events ++ [TEv.started (s.gen + 1)] }

/-- Embedding of `stop_recording` in the interleaved model
(`app/speech_recognition.py` lines 109-114): unconditionally clears the
flag and emits `recording_stopped` (ghost-tagged with the current
generation). -/
def doStop (s : Sys) : Sys :=
  { s with isRecording := false, events := s.events ++ [TEv.stopped s.gen] }

/-- One atomic step of worker `i` in the interleaved model. -/
def doWstep (s : Sys) (i : Nat) : Sys :=
  match s.workers[i]? with
  | none => s
  | some w =>
    let r := wstep1 s.isRecording w
    { s with
        workers := s.workers.set i r.1
        events := s.events ++ r.2.1
        isRecording := if r.2.2 then false else s.isRecording }

/-- One step of the interleaved model. -/
def sysStep (s : Sys) : Act → Sys
  | Act.start script => doStart s script
  | Act.stop => doStop s
  | Act.wstep i => doWstep s i

/-- The initial system: idle, no generations, no workers, empty log. -/
def sysInit : Sys :=
  { isRecording := false, gen := 0, workers := [], events := [] }

/-- Run the interleaved model over a schedule of actions. -/
def sysRun (acts : List Act) : Sys :=
  acts.foldl sysStep sysInit

/-- Number of audio devices currently open: a worker's `MicrophoneStream`
is open exactly while it is inside the `with` block (phase `looping`). -/
def deviceCount (s : Sys) : Nat :=
  s.workers.countP (fun w => w.phase = WPhase.looping)

/-- Does the event log contain a transcript of a generation strictly older
than `g'` somewhere after this point? -/
def anyStaleAfter (gNew : Nat) (evs : List TEv) : Bool :=
  evs.any (fun e =>
    match e with
    | TEv.transcript g _ _ => decide (g < gNew)
    | _ => false)

/-- A stale-delivery violation: some `recording_started` of generation `g'`
is followed, later in the log, by a transcript of a strictly earlier
generation. -/
def staleViolation : List TEv → Bool
  | [] => false
  | TEv.started gNew :: rest => anyStaleAfter gNew rest || staleViolation rest
  | _ :: rest => staleViolation rest

/-- Does a worker step emit any transcript event? -/
def emitsTranscript (evs : List TEv) : Bool :=
  evs.any (fun e =>
    match e with
    | TEv.transcript _ _ _ => true
    | _ => false)

/-! ## The request generator (`MicrophoneStream.generator` and the request
comprehension)

`MicrophoneStream.generator` (`app/speech_recognition.py` lines 48-64)
loops: it first checks `self.closed` (line 49) — if set, the generator
ends, never touching what is still queued; otherwise it does one blocking
`get` followed by an eager non-blocking drain of the queue.  A `None`
sentinel (enqueued by `__exit__`, line 41) obtained by either `get` makes
the generator `return` immediately — on the mid-drain hit (lines 58-59)
the frames already collected in `data` are discarded, not yielded.  Only
an iteration whose drain ends by `queue.Empty` yields, and it yields
`b"".join(data)`: the concatenation of every chunk drained at that poll.

We model a session's capture timeline as the list of queue snapshots seen
by successive iterations (`Poll`s): the value of `self.closed` at the
iteration's top-of-loop check, and the items the iteration's `get`s
obtain, in order, where `none` is the sentinel.  A frame is a byte buffer
(`List Nat`).  An empty item list models a blocking `get` that never
returns: the modeled trace ends there without a yield. -/

/-- Embedding of `speech.StreamingRecognizeRequest(audio_content=...)`. -/
structure RecReq where
  audio_content : List Nat
deriving DecidableEq, Repr

/-- One queue snapshot drained by one iteration of
`MicrophoneStream.generator`: `closedFlag` is `self.closed` at the
top-of-loop check (line 49), and `items` are the queue entries the
iteration's `get`s obtain, in order — `none` is the end-of-stream sentinel
put by `__exit__` (line 41). -/
structure Poll where
  closedFlag : Bool
  items : List (Option (List Nat))
deriving DecidableEq, Repr

/-- Result of the drain of one iteration (lines 50-62): `some` of the
collected frames, in order, when the drain ends via `queue.Empty`; `none`
when a sentinel is obtained (lines 51-52 and 58-59) — then the generator
returns at once and the frames already collected are discarded. -/
def collectFrames : List (Option (List Nat)) → Option (List (List Nat))
  | [] => some []
  | none :: _ => none
  | some f :: rest => (collectFrames rest).map (fun fs => f :: fs)

/-- Embedding of `MicrophoneStream.generator`
(`app/speech_recognition.py` lines 48-64) over a capture timeline: an
iteration whose top-of-loop `self.closed` check is true ends the
generator, dropping everything still queued; an iteration with no
available item blocks forever (the modeled trace ends); an iteration whose
drain hits the sentinel ends the generator without yielding, discarding
its collected frames; otherwise the iteration yields `b"".join(data)`. -/
def generatorYields : List Poll → List (List Nat)
  | [] => []
  | p :: rest =>
    if p.closedFlag then []
    else
      match p.items with
      | [] => []
      | _ :: _ =>
        match collectFrames p.items with
        | none => []
        | some fs => fs.flatten :: generatorYields rest

/-- Embedding of the request comprehension of `_recognition_loop`
(`app/speech_recognition.py` lines 133-136): exactly one
`StreamingRecognizeRequest` per buffer yielded by the generator, in order. -/
def requestsOf (polls : List Poll) : List RecReq :=
  (generatorYields polls).map RecReq.mk

/-- The frames captured into the queue during one poll (the sentinel is
not a frame). -/
def pollFrames (p : Poll) : List (List Nat) :=
  p.items.filterMap id

/-- All frames captured by `_fill_buffer` across a timeline. -/
def framesOf (polls : List Poll) : List (List Nat) :=
  (polls.map pollFrames).flatten

/-- The prefix of a timeline whose iterations complete with a yield: the
polls before the first true `closed` check, blocked `get`, or sentinel
hit.  Frames of later polls — and of the poll whose drain hit the
sentinel — never reach a request. -/
def completedPolls : List Poll → List Poll
  | [] => []
  | p :: rest =>
    if p.closedFlag then []
    else
      match p.items with
      | [] => []
      | _ :: _ =>
        match collectFrames p.items with
        | none => []
        | some _ => p :: completedPolls rest

/-! ## Audio format constants -/

/-- Embedding of `RATE = 16000` (`app/speech_recognition.py` line 11). -/
def appSampleRate : Nat := 16000

/-- Embedding of `CHUNK = int(RATE / 10)` (`app/speech_recognition.py` line 12). -/
def appChunk : Nat := appSampleRate / 10

/-- Bytes per sample of 16-bit linear PCM. -/
def bytesPerSample : Nat := 2

/-- Embedding of `ConfigManager.get(key, default)`
(`src/core/config.py` lines 34-44) specialised to numeric leaves: look the
key up in the loaded configuration and fall back to the default when the
lookup fails.  (The source walks a nested mapping by dot-splitting the key;
we represent the loaded configuration as its flattened key-value list,
which preserves the lookup-or-default behaviour.) -/
def cfgGetNat (cfg : List (String × Nat)) (key : String) (dflt : Nat) :
    Nat :=
  ((cfg.find? (fun p => p.1 = key)).map Prod.snd).getD dflt

/-- The configuration of a repository checkout: no YAML configuration file
is present in the repository, so the loaded mapping is empty and every
`get` falls back to its default. -/
def emptyCfg : List (String × Nat) := []

/-- Embedding of `self.sample_rate = self.config.get("speech.sample_rate", 16000)`
(`src/speech/speech_service.py` line 29). -/
def svcSampleRate (cfg : List (String × Nat)) : Nat :=
  cfgGetNat cfg ("speech.sample_rate") 16000

/-- Embedding of `self.chunk_size = self.config.get("speech.chunk_size", 1024)`
(`src/speech/speech_service.py` line 30). -/
def svcChunkSize (cfg : List (String × Nat)) : Nat :=
  cfgGetNat cfg ("speech.chunk_size") 1024

/-! ## Concrete witnesses and schedules used by the theorems -/

/-- A `SpeechService` in the middle of a recording session: client present,
recording, stream open, `should_stop` clear. -/
def svcRecState : SvcState :=
  { hasClient := true, isRecording := true, shouldStop := false,
    streamOpen := true, interim := true, devicesOpened := 1,
    workersSpawned := 1 }

/-- Schedule of a rapid stop/start race: generation 1 starts and its worker
opens the device; `stop_recording` runs; generation 2 starts; only then does
worker 1 pull its buffered response. -/
def c5sched : List Act :=
  [Act.start [RespItem.resp [⟨["hi"], false⟩]], Act.wstep 0, Act.stop,
   Act.start [], Act.wstep 0]

/-- The same race, scheduled so that worker 2 opens its device while worker
1 is still inside its `with` block. -/
def c6sched : List Act :=
  [Act.start [RespItem.resp [⟨["hi"], false⟩]], Act.wstep 0, Act.stop,
   Act.start [], Act.wstep 1]

/-- Ghost device events of the app variant. -/
def isDevEv : Ev → Bool
  | Ev.devOpen => true
  | Ev.devClose => true
  | _ => false

/-! ## Helper lemmas about the app-variant worker loop -/

/-- The response loop of the app variant emits only `recording_stopped` and
transcript events: never error or device events. -/
theorem appLoop_mem_shape (isRec : Bool) (s : List InItem) :
    ∀ e : Ev, e ∈ (appLoop isRec s).1 →
      e = Ev.stopped ∨ ∃ t f, e = Ev.transcript t f := by
  induction isRec, s using appLoop.induct with
  | case1 x => intro e h; simp [appLoop] at h
  | case2 x tail => intro e h; simp [appLoop] at h
  | case3 x rest ih =>
    intro e h
    simp only [appLoop, List.mem_cons] at h
    rcases h with h | h
    · exact Or.inl h
    · exact ih e h
  | case4 rest ih =>
    intro e h
    simp only [appLoop, if_true] at h
    exact ih e h
  | case5 rest r tail hA ih =>
    intro e h
    simp only [appLoop, hA, if_true] at h
    exact ih e h
  | case6 rest r tail t tail1 hA hF =>
    intro e h
    simp [appLoop, hA, hF] at h
    rcases h with h | h
    · exact Or.inr ⟨t, r.is_final, h⟩
    · exact Or.inl h
  | case7 rest r tail t tail1 hA hF ih =>
    intro e h
    simp [appLoop, hA, hF] at h
    rcases h with h | h
    · exact Or.inr ⟨t, r.is_final, h⟩
    · exact ih e h
  | case8 isRec results rest hR =>
    intro e h
    simp only [Bool.not_eq_true] at hR
    simp [appLoop, hR] at h

/-- The number of `recording_stopped` events emitted inside the response
loop equals the number of `stop_recording()` invocations made there. -/
theorem appLoop_count_stopped (isRec : Bool) (s : List InItem) :
    ((appLoop isRec s).1).count Ev.stopped = stopCalls isRec s := by
  induction isRec, s using appLoop.induct with
  | case1 x => simp [appLoop, stopCalls]
  | case2 x tail => simp [appLoop, stopCalls]
  | case3 x rest ih =>
    simp [appLoop, stopCalls, List.count_cons, ih]
    omega
  | case4 rest ih => simp [appLoop, stopCalls, ih]
  | case5 rest r tail hA ih => simp [appLoop, stopCalls, hA, ih]
  | case6 rest r tail t tail1 hA hF =>
    simp [appLoop, stopCalls, hA, hF, List.count_cons]
  | case7 rest r tail t tail1 hA hF ih =>
    simp [appLoop, stopCalls, hA, hF, List.count_cons, ih]
  | case8 isRec results rest hR =>
    simp only [Bool.not_eq_true] at hR
    simp [appLoop, stopCalls, hR]

/-- The response loop never emits an error event. -/
theorem appLoop_count_error (s : List InItem) (isRec : Bool) :
    ((appLoop isRec s).1).count Ev.errorEv = 0 := by
  rw [List.count_eq_zero]
  intro h
  rcases appLoop_mem_shape isRec s Ev.errorEv h with h1 | ⟨t, f, h1⟩ <;>
    simp at h1

/-- The response loop never emits a device event. -/
theorem appLoop_filter_dev (s : List InItem) (isRec : Bool) :
    ((appLoop isRec s).1).filter isDevEv = [] := by
  rw [List.filter_eq_nil_iff]
  intro e h
  rcases appLoop_mem_shape isRec s e h with h1 | ⟨t, f, h1⟩ <;>
    simp [h1, isDevEv]

/-- The response loop never emits a `devClose` event. -/
theorem appLoop_count_devClose (s : List InItem) (isRec : Bool) :
    ((appLoop isRec s).1).count Ev.devClose = 0 := by
  rw [List.count_eq_zero]
  intro h
  rcases appLoop_mem_shape isRec s Ev.devClose h with h1 | ⟨t, f, h1⟩ <;>
    simp at h1

/-- A session's event list always ends with the `finally` block's
`recording_stopped`. -/
theorem runSession_concat (script : List InItem) :
    runSession script =
      (Ev.started :: Ev.devOpen :: ((appLoop true script).1 ++ [Ev.devClose]
        ++ (if (appLoop true script).2 then [Ev.errorEv] else []))) ++
        [Ev.stopped] := by
  simp [runSession, List.append_assoc]

/-- Flattening commutes with per-batch flattening. -/
theorem flatten_map_flatten (L : List (List (List Nat))) :
    (L.map (fun b => b.flatten)).flatten = L.flatten.flatten := by
  induction L with
  | nil => simp
  | cons b L ih => simp [ih]

/-- When the drain of a poll completes without hitting the sentinel, the
collected frames are exactly the poll's frames, in order. -/
theorem collectFrames_eq_filterMap :
    ∀ (items : List (Option (List Nat))) (fs : List (List Nat)),
      collectFrames items = some fs → fs = items.filterMap id := by
  intro items
  induction items with
  | nil =>
    intro fs h
    simp [collectFrames] at h
    simp [← h]
  | cons it rest ih =>
    intro fs h
    cases it with
    | none => simp [collectFrames] at h
    | some f =>
      simp only [collectFrames, Option.map_eq_some'] at h
      rcases h with ⟨fs1, h1, h2⟩
      rw [← h2, ih fs1 h1]
      simp

/-- The generator yields exactly one joined buffer per completed poll. -/
theorem generatorYields_eq (polls : List Poll) :
    generatorYields polls =
      (completedPolls polls).map (fun p => (pollFrames p).flatten) := by
  induction polls with
  | nil => rfl
  | cons p rest ih =>
    rcases p with ⟨c, items⟩
    cases c with
    | true => simp [generatorYields, completedPolls]
    | false =>
      cases items with
      | nil => simp [generatorYields, completedPolls]
      | cons it tl =>
        cases hs : collectFrames (it :: tl) with
        | none => simp [generatorYields, completedPolls, hs]
        | some fs =>
          have hfs := collectFrames_eq_filterMap (it :: tl) fs hs
          simp [generatorYields, completedPolls, hs, ih, pollFrames, hfs]

/-! ## Claim theorems -/

/-- C1 counterexample.  The claim "exactly one recording_stopped event is
emitted when the session ends, regardless of which path triggered teardown"
is false of the app variant: on the exit-phrase path, `stop_recording`
emits `recording_stopped` (line 114) and the worker's `finally` block emits
it again (line 145), so the generation emits it twice. -/
theorem c1_counterexample :
    ¬ (∀ script : List InItem, (runSession script).count Ev.stopped = 1) := by
  intro h
  have h2 := h [InItem.resp [⟨["exit"], true⟩]]
  have h3 : (runSession [InItem.resp [⟨["exit"], true⟩]]).count Ev.stopped
      = 2 := by decide
  rw [h3] at h2
  exact absurd h2 (by decide)

/-- C1 amended.  Every session generation of the app variant that
successfully opens the device emits `recording_stopped` exactly
`1 + stopCalls` times: once unconditionally from the worker's `finally`
block, plus once per `stop_recording()` invocation made during the session
(external `stop()` calls and exit-phrase matches).  In particular it is
never zero, and it is exactly one precisely on the error and end-of-stream
paths where `stop_recording` was never invoked. -/
theorem c1_amended (script : List InItem) :
    (runSession script).count Ev.stopped = 1 + stopCalls true script := by
  rw [runSession_concat]
  simp [List.count_append, List.count_cons, appLoop_count_stopped]
  cases h : (appLoop true script).2 <;> simp [h] <;> omega

/-- C2 counterexample.  The claim "every mid-session exception emits one
error event and then performs teardown; no failure path leaves the session
in Recording state or with the device open" is false of the service
variant: an exception in the response stream emits `error_occurred` once,
but `_recognition_worker` performs no teardown — `is_recording` stays true,
the stream stays open and no `recording_status_changed(False)` follows. -/
theorem c2_counterexample :
    (svcWorkerRun svcRecState (SvcScript.stream [SvcItem.raiseItem])).2 =
      [SvcEv.svcError] ∧
    (svcWorkerRun svcRecState
        (SvcScript.stream [SvcItem.raiseItem])).1.isRecording = true ∧
    (svcWorkerRun svcRecState
        (SvcScript.stream [SvcItem.raiseItem])).1.streamOpen = true ∧
    ¬ (SvcEv.statusChanged false ∈
        (svcWorkerRun svcRecState
          (SvcScript.stream [SvcItem.raiseItem])).2) := by
  decide

/-- C2 amended.  In the app variant the claim holds: a session run emits an
error event exactly when an exception escaped the streaming exchange (and
then exactly one), the device-close always happens, and the final event is
the `finally` block's `recording_stopped`, so the error event is always
followed by a `recording_stopped`.  In the service variant an exception
also produces exactly one `error_occurred` (whether raised by the call or
inside the response iteration), but the worker performs no teardown at all:
it never writes any state field, so the session stays `Recording` with the
stream open until `stop_recognition` is called. -/
theorem c2_amended :
    (∀ script : List InItem,
        (runSession script).count Ev.errorEv =
          (if (appLoop true script).2 then 1 else 0)) ∧
    (∀ script : List InItem,
        (runSession script).getLast? = some Ev.stopped) ∧
    (∀ script : List InItem,
        (runSession script).count Ev.devClose = 1) ∧
    (∀ (s : SvcState) (sc : SvcScript), (svcWorkerRun s sc).1 = s) ∧
    (∀ s : SvcState,
        (svcWorkerRun s SvcScript.callRaise).2 = [SvcEv.svcError]) ∧
    (∀ s : SvcState,
        (svcWorkerRun s (SvcScript.stream [SvcItem.raiseItem])).2 =
          (if s.shouldStop then [] else [SvcEv.svcError])) := by
  refine ⟨?_, ?_, ?_, ?_, ?_, ?_⟩
  · intro script
    rw [runSession_concat]
    simp [List.count_append, List.count_cons, appLoop_count_error]
    cases h : (appLoop true script).2 <;> simp [h]
  · intro script
    rw [runSession_concat, List.getLast?_concat]
  · intro script
    rw [runSession_concat]
    simp [List.count_append, List.count_cons, appLoop_count_devClose]
    cases h : (appLoop true script).2 <;> simp [h]
  · intro s sc
    cases sc <;> rfl
  · intro s
    rfl
  · intro s
    simp [svcWorkerRun, svcProcessResponses]

/-- C3.  Calling `start()` while already recording is a no-op that reports
success in both variants: the state (including the ghost device and worker
counters) is unchanged, no event is emitted, and the service variant
returns `True` (lines 94-96 of the service, lines 100-101 of the app). -/
theorem c3_idempotent_start :
    (∀ s : AppCtl, s.isRecording = true → appStartRecording s = (s, [])) ∧
    (∀ (initOk openOk : Bool) (s : SvcState),
        s.isRecording = true → s.hasClient = true →
        svcStartRecognition initOk openOk s = (s, true, [])) := by
  constructor
  · intro s h
    simp [appStartRecording, h]
  · intro initOk openOk s h hc
    simp [svcStartRecognition, svcStartBody, h, hc]

/-- C3 witness: a concrete recording state in each variant. -/
theorem c3_witness :
    appStartRecording ⟨true, true, 1⟩ = (⟨true, true, 1⟩, []) ∧
    svcStartRecognition true true ⟨true, true, false, true, true, 1, 1⟩ =
      (⟨true, true, false, true, true, 1, 1⟩, true, []) :=
  ⟨c3_idempotent_start.1 ⟨true, true, 1⟩ rfl,
   c3_idempotent_start.2 true true ⟨true, true, false, true, true, 1, 1⟩
     rfl rfl⟩

/-- C4 counterexample.  The claim that a final transcript containing a
whole-word "exit"/"quit" triggers teardown is false of the service variant,
which performs no exit-phrase scan: after a final "exit" transcript it
keeps processing (here delivering a further interim result) and never emits
`recording_status_changed(False)`. -/
theorem c4_counterexample :
    svcProcessResponses true false
        [SvcItem.resp [⟨["exit"], true⟩], SvcItem.resp [⟨["more"], false⟩]] =
      [SvcEv.transcription ("exit"), SvcEv.transcription ("[INTERIM] more")]
    ∧
    ¬ (SvcEv.statusChanged false ∈
        svcProcessResponses true false
          [SvcItem.resp [⟨["exit"], true⟩],
           SvcItem.resp [⟨["more"], false⟩]]) := by
  decide

/-- C4 amended.  Only the app variant detects the exit phrase: when a final
transcript matches `\b(exit|quit)\b` case-insensitively, the loop first
emits the transcript event, then runs `stop_recording` (emitting
`recording_stopped`) and breaks, after which the device is closed and the
`finally` block emits its own `recording_stopped` — so the full session
trace is start, device open, the transcript, two `recording_stopped`
events around the device close.  The service variant performs no
exit-phrase detection: it emits the (stripped) final transcript and simply
continues with the remaining responses. -/
theorem c4_amended :
    (∀ (t : String) (rest : List InItem), exitPhrase t = true →
        appLoop true (InItem.resp [⟨[t], true⟩] :: rest) =
          ([Ev.transcript t true, Ev.stopped], false)) ∧
    (∀ (t : String) (rest : List InItem), exitPhrase t = true →
        runSession (InItem.resp [⟨[t], true⟩] :: rest) =
          [Ev.started, Ev.devOpen, Ev.transcript t true, Ev.stopped,
           Ev.devClose, Ev.stopped]) ∧
    (∀ (interim : Bool) (t : String) (rest : List SvcItem),
        svcProcessResponses interim false
            (SvcItem.resp [⟨[t], true⟩] :: rest) =
          SvcEv.transcription (pyStrip t) ::
            svcProcessResponses interim false rest) := by
  refine ⟨?_, ?_, ?_⟩
  · intro t rest h
    simp [appLoop, h]
  · intro t rest h
    simp [runSession, appLoop, h]
  · intro interim t rest
    simp [svcProcessResponses]

/-- C4 witness: the exit phrase "exit" at the end of a session. -/
theorem c4_witness :
    runSession [InItem.resp [⟨["exit"], true⟩]] =
      [Ev.started, Ev.devOpen, Ev.transcript ("exit") true, Ev.stopped,
       Ev.devClose, Ev.stopped] :=
  c4_amended.2.1 ("exit") [] (by decide)

/-- C5 counterexample.  The claim that events are tagged with a generation
counter and stale ones discarded is false: the code carries no generation
counter, and its only guard — the shared `is_recording` flag — is re-set by
the next `start()`.  In the schedule `c5sched` (start, worker 1 opens,
stop, start again, worker 1 pulls its buffered response), worker 1 sees
`is_recording = true` again and delivers its generation-1 transcript after
generation 2's `recording_started` has fired. -/
theorem c5_counterexample :
    ¬ (∀ acts : List Act, staleViolation (sysRun acts).events = false) := by
  intro h
  have h2 := h c5sched
  have h3 : staleViolation (sysRun c5sched).events = true := by decide
  rw [h3] at h2
  exact absurd h2 (by decide)

/-- C5 amended.  Events are not tagged with a generation counter; the only
staleness guard is the shared `is_recording` flag read at each pulled
response (line 150): while the flag is false, no worker step delivers a
transcript.  This guard does not extend across generations — once a later
`start()` sets the flag again, an earlier generation's transcript can be
delivered after the later generation's `recording_started` (the
counterexample schedule). -/
theorem c5_amended (w : Worker) :
    emitsTranscript (wstep1 false w).2.1 = false := by
  rcases w with ⟨g, ph, sc⟩
  cases ph with
  | toOpen => rfl
  | looping =>
    cases sc with
    | nil => rfl
    | cons it rest => cases it <;> simp [wstep1, emitsTranscript]
  | excPh => rfl
  | finPh => rfl
  | doneW => rfl

/-- C6 counterexample.  The claim "the device is open iff the state is
Starting or Recording, and at most one device is open at any time" is
false: in the schedule `c6sched`, generation 2 starts and its worker opens
a second `MicrophoneStream` while generation 1's worker is still inside its
`with` block (it has not yet observed the stop), so two devices are open
simultaneously. -/
theorem c6_counterexample :
    ¬ (∀ acts : List Act,
        deviceCount (sysRun acts) ≤ 1 ∧
        ((sysRun acts).isRecording = true ↔ 1 ≤ deviceCount (sysRun acts)))
    := by
  intro h
  have h2 := (h c6sched).1
  have h3 : deviceCount (sysRun c6sched) = 2 := by decide
  rw [h3] at h2
  exact absurd h2 (by decide)

/-- C6 amended.  Open/close pairing holds per session generation: every
generation of the app variant that successfully opens the device closes it
on every path out of the session (normal end of stream, error, `stop()` and
exit phrase) — the device events of a session run are exactly one open
followed by one close.  The global claims fail: the device-open window is
not synchronized with the `is_recording` flag and two generations' devices
can overlap after a rapid stop/start (the counterexample schedule). -/
theorem c6_amended (script : List InItem) :
    (runSession script).filter isDevEv = [Ev.devOpen, Ev.devClose] := by
  rw [runSession_concat]
  cases h : (appLoop true script).2 <;>
    simp [h, List.filter_append, appLoop_filter_dev, isDevEv]

/-- C7 counterexample.  The claim "exactly one RecognitionRequest per
AudioFrame, never batched" is false: `MicrophoneStream.generator` drains
every frame available at a poll and yields their concatenation, so a poll
that finds two buffered frames produces a single request carrying both
frames joined. -/
theorem c7_counterexample :
    ¬ (∀ polls : List Poll,
        (requestsOf polls).map RecReq.audio_content = framesOf polls) := by
  intro h
  have h2 := h [⟨false, [some [0], some [1]]⟩]
  have h3 : (requestsOf [⟨false, [some [0], some [1]]⟩]).map
      RecReq.audio_content = [[0, 1]] := by decide
  rw [h3] at h2
  exact absurd h2 (by decide)

/-- C7 amended.  The request stream contains exactly one request per
completed generator iteration, not per frame: each request's payload is
the in-order concatenation of the frames drained by its iteration
(batching), and over the completed prefix of the timeline the
concatenation of all request payloads equals the concatenation of all
frames, in order.  Beyond that prefix frames are dropped at teardown: an
iteration that sees `self.closed` set ends the generator with frames
still queued (fourth conjunct), and a sentinel hit mid-drain discards the
frames the iteration had already collected (third conjunct) — so
preservation holds only up to the first closed check or sentinel, and
nothing is ever reordered. -/
theorem c7_amended (polls : List Poll) :
    requestsOf polls =
      (completedPolls polls).map
        (fun p => RecReq.mk (pollFrames p).flatten) ∧
    ((requestsOf polls).map RecReq.audio_content).flatten =
      (framesOf (completedPolls polls)).flatten ∧
    requestsOf [⟨false, [some [0], none]⟩] = [] ∧
    requestsOf [⟨true, [some [0]]⟩] = [] := by
  refine ⟨?_, ?_, by decide, by decide⟩
  · rw [requestsOf, generatorYields_eq, List.map_map]
    rfl
  · have h : (requestsOf polls).map RecReq.audio_content =
        ((completedPolls polls).map pollFrames).map
          (fun b => b.flatten) := by
      rw [requestsOf, generatorYields_eq]
      simp [List.map_map, Function.comp]
    rw [h, flatten_map_flatten, framesOf]

/-- C8 counterexample.  The claim that `stop()` while Idle emits no event
is false in both variants: `SpeechRecognition.stop_recording`
unconditionally emits `recording_stopped` (line 114) and
`SpeechService.stop_recognition` unconditionally emits
`recording_status_changed(False)` (line 149), even when nothing is
recording. -/
theorem c8_counterexample :
    (appStopRecording ⟨false, true, 1⟩).2 = [Ev.stopped] ∧
    (svcStopRecognition ⟨true, false, true, false, true, 1, 1⟩).2 =
      [SvcEv.statusChanged false] ∧
    ¬ ((appStopRecording ⟨false, true, 1⟩).2 = []) := by
  decide

/-- C8 amended.  `stop()` while Idle leaves the session state Idle and
performs no device operation (the app object is unchanged; the service
keeps its stream closed and its device counter untouched), but it is not
silent: it emits exactly one `recording_stopped` /
`recording_status_changed(False)` event. -/
theorem c8_amended :
    (∀ s : AppCtl, s.isRecording = false →
        (appStopRecording s).1 = s ∧
        (appStopRecording s).2 = [Ev.stopped]) ∧
    (∀ s : SvcState, s.isRecording = false → s.streamOpen = false →
        (svcStopRecognition s).1.isRecording = false ∧
        (svcStopRecognition s).1.streamOpen = false ∧
        (svcStopRecognition s).1.devicesOpened = s.devicesOpened ∧
        (svcStopRecognition s).2 = [SvcEv.statusChanged false]) := by
  constructor
  · intro s h
    rcases s with ⟨r, c, w⟩
    cases h
    exact ⟨rfl, rfl⟩
  · intro s h1 h2
    exact ⟨rfl, rfl, rfl, rfl⟩

/-- C8 witness: concrete idle states. -/
theorem c8_witness :
    ((appStopRecording ⟨false, true, 0⟩).1 = (⟨false, true, 0⟩ : AppCtl) ∧
      (appStopRecording ⟨false, true, 0⟩).2 = [Ev.stopped]) ∧
    ((svcStopRecognition
        ⟨true, false, true, false, true, 0, 0⟩).1.isRecording = false ∧
      (svcStopRecognition
        ⟨true, false, true, false, true, 0, 0⟩).1.streamOpen = false ∧
      (svcStopRecognition
        ⟨true, false, true, false, true, 0, 0⟩).1.devicesOpened = 0 ∧
      (svcStopRecognition ⟨true, false, true, false, true, 0, 0⟩).2 =
        [SvcEv.statusChanged false]) :=
  ⟨c8_amended.1 ⟨false, true, 0⟩ rfl,
   c8_amended.2 ⟨true, false, true, false, true, 0, 0⟩ rfl rfl⟩

/-- C9 counterexample.  The claim that every captured frame is 1600 samples
(100 ms at 16 kHz, 3200 bytes) is false for the service variant: with the
repository's configuration (no YAML file, so every `get` returns its
default), `chunk_size` is 1024 samples — 2048 bytes, 64 ms — not 1600. -/
theorem c9_counterexample :
    svcChunkSize emptyCfg = 1024 ∧
    ¬ (appChunk = 1600 ∧ svcChunkSize emptyCfg = 1600) := by
  decide

/-- C9 amended.  The app variant matches the claim exactly: `RATE = 16000`
and `CHUNK = RATE / 10 = 1600` samples per read, i.e. 3200 bytes of 16-bit
mono PCM (100 ms).  The service variant records at the same default sample
rate but with a default `chunk_size` of 1024 samples (2048 bytes, 64 ms). -/
theorem c9_amended :
    appSampleRate = 16000 ∧ appChunk = 1600 ∧
    bytesPerSample * appChunk = 3200 ∧ appChunk * 10 = appSampleRate ∧
    svcSampleRate emptyCfg = 16000 ∧ svcChunkSize emptyCfg = 1024 ∧
    bytesPerSample * svcChunkSize emptyCfg = 2048 := by
  decide

/-- C10.  In the service variant every transcript is delivered as a single
string on `transcription_received`, with the final/interim distinction
encoded in the text: a final result is emitted stripped of surrounding
whitespace, and an interim result is emitted prefixed with the literal
marker "[INTERIM] " and only when `interim_results` is true (lines 229-235
of `src/speech/speech_service.py`). -/
theorem c10_transcription_channel (interim : Bool) (t : String) (fin : Bool)
    (rest : List SvcItem) :
    svcProcessResponses interim false (SvcItem.resp [⟨[t], fin⟩] :: rest) =
      (if fin then
        SvcEv.transcription (pyStrip t) ::
          svcProcessResponses interim false rest
      else if interim then
        SvcEv.transcription (("[INTERIM] ") ++ t) ::
          svcProcessResponses interim false rest
      else svcProcessResponses interim false rest) := by
  cases fin <;> cases interim <;> simp [svcProcessResponses]
